import Mathlib

/-
Verification of the same-origin web crawler (src/src/index.ts).

The crawler is a single class with mutable state (visitedUrls : Set<string>,
pageCount : number) and four operations:

  crawl(startUrl, maxPages)       launches the browser, computes the seed
                                  origin, runs crawlPage, closes the browser;
  crawlPage(page, url, base, max) the recursive visitation procedure;
  discoverLinks(page, baseUrl)    in-page collection of anchor hrefs;
  saveToFile(url, content)        artifact writer with an internal try/catch.

The embedding below is a direct translation.  JavaScript exceptions become
Option results (none = the operation threw); the external collaborators
(the renderer, the filesystem, the WHATWG URL resolver invoked by
new URL(href, base)) are parameters collected in the Graph structure, so a
crawl run is a pure function of the injected environment.  The recursion of
crawlPage is bounded by a fuel parameter (structural Nat.rec, hence fully
computable and kernel-reducible); sufficiency of maxPages + 1 fuel is
proved below, mirroring the termination argument of the spec.
-/

namespace WebCrawler

/-- State of one PlaywrightCrawler instance: visitedUrls is the JS
Set<string> in insertion order, saveCalls records every invocation of
saveToFile (in call order), savedOk the invocations whose fs write
succeeded, and pageCount is the saved-page counter (incremented only on a
successful write). -/
structure CrawlState where
  visitedUrls : List String
  saveCalls : List String
  savedOk : List String
  pageCount : Nat
deriving Repr, DecidableEq

/-- Fresh crawler state: empty visited set, no saves, zero counter. -/
def initState : CrawlState := ⟨[], [], [], 0⟩

/-- Model of JavaScript String.startsWith over the characters of the
string: s starts with p when the character list of p is an initial
segment of the character list of s.  (Computed on List Char so that
concrete runs reduce inside the kernel.) -/
def jsStartsWith (s p : String) : Bool :=
  p.data.isPrefixOf s.data

/-- The injected environment of one crawl run.  render url is the outcome
of page.goto(url) followed by reading the page: none means navigation
threw (NavigationFailure); some hrefs gives the href attributes of the
anchors of the rendered page in document order (a none entry is an anchor
without an href attribute).  writeOk url tells whether
fs.promises.writeFile succeeds for the artifact of that url.  resolve
href base models the browser URL constructor new URL(href, base).href:
none means the constructor threw on a malformed href, which the WHATWG
standard allows even under a valid base (for example new URL with input
two slashes followed by an open bracket rejects). -/
structure Graph where
  render : String → Option (List (Option String))
  writeOk : String → Bool
  resolve : String → String → Option String

/-- One step of the discoverLinks forEach loop over the href attribute of
one anchor.  Direct translation of
  let href = el.getAttribute("href");
  if (href AND NOT href.startsWith("http") AND NOT href.startsWith("#"))
    href = new URL(href, baseUrl).href;        // may throw
  if (href AND href.startsWith(baseUrl)) links.add(href);
Returns none when the URL constructor threw; the source has no try/catch
inside the callback, so that aborts the whole loop. -/
def discoverStep (g : Graph) (baseUrl : String) (acc : List String)
    (attr : Option String) : Option (List String) :=
  match attr with
  | none => some acc
  | some href0 =>
    let resolved : Option String :=
      if href0 ≠ "" ∧ ¬ jsStartsWith href0 "http" ∧ ¬ jsStartsWith href0 "#" then
        g.resolve href0 baseUrl
      else
        some href0
    match resolved with
    | none => none
    | some href =>
      if href ≠ "" ∧ jsStartsWith href baseUrl then
        some (if href ∈ acc then acc else acc ++ [href])
      else
        some acc

/-- The loop of discoverLinks: fold discoverStep over the anchors,
threading the insertion-ordered Set accumulator, aborting on a throw. -/
def discoverLoop (g : Graph) (baseUrl : String) :
    List (Option String) → List String → Option (List String)
  | [], acc => some acc
  | attr :: rest, acc =>
    match discoverStep g baseUrl acc attr with
    | none => none
    | some acc2 => discoverLoop g baseUrl rest acc2

/-- discoverLinks(page, baseUrl): collect into a Set<string> the hrefs of
all anchors that survive resolution and the baseUrl check, returned in
insertion order (Array.from of the Set).  none models the evaluate call
rejecting because new URL threw on some candidate. -/
def discoverLinks (g : Graph) (baseUrl : String) (hrefs : List (Option String)) :
    Option (List String) :=
  discoverLoop g baseUrl hrefs []

/-- saveToFile(url, content): attempts the fs write inside its own
try/catch, so it never throws; pageCount is incremented only when the
write succeeded.  Content and file name affect no crawl decision, so the
state records only which urls were saved. -/
def saveToFile (g : Graph) (url : String) (s : CrawlState) : CrawlState :=
  if g.writeOk url then
    { s with saveCalls := s.saveCalls ++ [url],
             savedOk := s.savedOk ++ [url],
             pageCount := s.pageCount + 1 }
  else
    { s with saveCalls := s.saveCalls ++ [url] }

/-- this.visitedUrls.add(url): append to the insertion-ordered set.  The
source only reaches this call on a url that passed the admission check,
hence not yet a member. -/
def markVisited (url : String) (s : CrawlState) : CrawlState :=
  { s with visitedUrls := s.visitedUrls ++ [url] }

/-- The for-loop at the end of crawlPage:
  for (const link of links)
    if (this.visitedUrls.size < maxPages) await this.crawlPage(..link..);
    else break;
parameterized by the recursive call f.  none only arises from fuel
exhaustion of f, never in the source (a nested crawlPage never throws). -/
def crawlList (f : String → CrawlState → Option CrawlState) (maxPages : Nat) :
    List String → CrawlState → Option CrawlState
  | [], s => some s
  | link :: rest, s =>
    if s.visitedUrls.length < maxPages then
      match f link s with
      | none => none
      | some s2 => crawlList f maxPages rest s2
    else
      some s

/-- Body of crawlPage, with ih the recursive call for the nested visits.
Direct translation of crawlPage(page, url, baseUrl, maxPages): admission
check, mark visited, try { goto; extract; save; discover; loop } catch
{ log }.  A goto failure (render = none) or a discovery throw
(discoverLinks = none) is absorbed by the catch: the call returns
normally with the side effects performed so far (in the discovery-throw
case the artifact of this page was already saved). -/
def crawlPageBody (g : Graph) (baseUrl : String) (maxPages : Nat)
    (ih : String → CrawlState → Option CrawlState)
    (url : String) (s : CrawlState) : Option CrawlState :=
  if maxPages ≤ s.visitedUrls.length ∨ url ∈ s.visitedUrls then
    some s
  else
    match g.render url with
    | none => some (markVisited url s)
    | some hrefs =>
      match discoverLinks g baseUrl hrefs with
      | none => some (saveToFile g url (markVisited url s))
      | some links => crawlList ih maxPages links (saveToFile g url (markVisited url s))

/-- crawlPage with fuel: structural Nat recursion, so runs on concrete
inputs reduce definitionally.  Fuel bounds only the recursion depth of
the embedding; crawlPage_total below shows maxPages + 1 fuel always
suffices, which is the termination argument of the source. -/
def crawlPage (g : Graph) (baseUrl : String) (maxPages : Nat) :
    Nat → String → CrawlState → Option CrawlState :=
  Nat.rec (motive := fun _ => String → CrawlState → Option CrawlState)
    (fun _ _ => none)
    (fun _ ih => crawlPageBody g baseUrl maxPages ih)

/-- Model of the browser new URL(startUrl).origin for http(s) URLs:
scheme plus host, the part before the first slash after the scheme
separator.  none models the URL constructor throwing on a malformed
seed. -/
def originOf (url : String) : Option String :=
  if jsStartsWith url "https://" then
    some ⟨"https://".data ++ ((url.data.drop 8).takeWhile (fun c => c ≠ '/'))⟩
  else if jsStartsWith url "http://" then
    some ⟨"http://".data ++ ((url.data.drop 7).takeWhile (fun c => c ≠ '/'))⟩
  else
    none

/-- Failure injection for the session setup of crawl: whether
chromium.launch() and browser.newPage() succeed. -/
structure Session where
  launchOk : Bool
  newPageOk : Bool
deriving Repr, DecidableEq

/-- Observable outcome of one crawl(startUrl, maxPages) invocation:
whether a browser was launched, whether the browser.close() line was
reached, and the reported pageCount (none when crawl rejected with an
exception). -/
structure CrawlResult where
  browserLaunched : Bool
  browserClosed : Bool
  outcome : Option Nat
deriving Repr, DecidableEq

/-- crawl(startUrl, maxPages): launch, newPage, parse the seed origin,
run crawlPage on the seed, then close.  Direct translation: the source
has no try/finally, so any throw before the close line leaves the
browser open.  crawlPage itself never throws (its body past the
admission check is one try/catch), so with sufficient fuel the only
throwing steps are launch, newPage and the origin parse. -/
def crawl (sess : Session) (g : Graph) (startUrl : String) (maxPages : Nat) :
    CrawlResult :=
  if sess.launchOk = false then
    { browserLaunched := false, browserClosed := false, outcome := none }
  else if sess.newPageOk = false then
    { browserLaunched := true, browserClosed := false, outcome := none }
  else
    match originOf startUrl with
    | none => { browserLaunched := true, browserClosed := false, outcome := none }
    | some baseUrl =>
      match crawlPage g baseUrl maxPages (maxPages + 1) startUrl initState with
      | none => { browserLaunched := true, browserClosed := false, outcome := none }
      | some s =>
        { browserLaunched := true, browserClosed := true, outcome := some s.pageCount }

/-- The run invariant of one crawler instance: the visited set and both
save logs are duplicate-free, every saveToFile call was for a visited
url, every successful save was a call, successful saves only happen when
the filesystem write succeeds, and pageCount counts the successful
saves. -/
def Inv (g : Graph) (s : CrawlState) : Prop :=
  s.visitedUrls.Nodup ∧
  s.saveCalls.Nodup ∧
  s.savedOk.Nodup ∧
  (∀ u ∈ s.saveCalls, u ∈ s.visitedUrls) ∧
  (∀ u ∈ s.savedOk, u ∈ s.saveCalls) ∧
  (∀ u ∈ s.savedOk, g.writeOk u = true) ∧
  s.pageCount = s.savedOk.length

/-! ### Concrete environments used by individual claims -/

/-- Graph for the prefix-confusion attack on the same-origin check: the
seed page carries one absolute anchor whose host merely extends the seed
host as a string. -/
def g1 : Graph where
  render := fun url =>
    if url = "https://example.test/" then
      some [some "https://example.test.evil.com/x"]
    else if url = "https://example.test.evil.com/x" then some []
    else none
  writeOk := fun _ => true
  resolve := fun _ _ => none

/-- Graph of the budget scenario of the spec: / links to /a and /b, /a
links to / and /c, /b and /c are leaves, every write succeeds. -/
def g2 : Graph where
  render := fun url =>
    if url = "https://example.test/" then
      some [some "https://example.test/a", some "https://example.test/b"]
    else if url = "https://example.test/a" then
      some [some "https://example.test/", some "https://example.test/c"]
    else if url = "https://example.test/b" then some []
    else if url = "https://example.test/c" then some []
    else none
  writeOk := fun _ => true
  resolve := fun _ _ => none

/-- Minimal graph for the budget witness: every navigation fails. -/
def g3 : Graph where
  render := fun _ => none
  writeOk := fun _ => true
  resolve := fun _ _ => none

/-- Minimal graph for the uniqueness witness: the seed is a leaf page. -/
def g4 : Graph where
  render := fun url =>
    if url = "https://example.test/" then some [] else none
  writeOk := fun _ => true
  resolve := fun _ _ => none

/-- Graph for failure isolation: the seed links to /x and /b, navigation
to /x fails, /b is a healthy leaf. -/
def g6 : Graph where
  render := fun url =>
    if url = "https://example.test/" then
      some [some "https://example.test/x", some "https://example.test/b"]
    else if url = "https://example.test/x" then none
    else if url = "https://example.test/b" then some []
    else none
  writeOk := fun _ => true
  resolve := fun _ _ => none

/-- Graph for the write-failure scenario: the seed links to /b, both
render, but the artifact write for /b fails with a permission error. -/
def g7 : Graph where
  render := fun url =>
    if url = "https://example.test/" then some [some "https://example.test/b"]
    else if url = "https://example.test/b" then some []
    else none
  writeOk := fun url => url != "https://example.test/b"
  resolve := fun _ _ => none

/-- Final state of the write-failure scenario run: /b is visited and its
save was attempted exactly once, but only the seed counts as saved. -/
def s7 : CrawlState :=
  { visitedUrls := ["https://example.test/", "https://example.test/b"],
    saveCalls := ["https://example.test/", "https://example.test/b"],
    savedOk := ["https://example.test/"],
    pageCount := 1 }

/-- Trivial graph for the session-teardown paths of crawl. -/
def g8 : Graph where
  render := fun _ => none
  writeOk := fun _ => true
  resolve := fun _ _ => none

/-- Graph for malformed-href discovery: the seed page carries a relative
anchor between two good ones whose resolution throws; the resolver
resolves every other relative href against the origin. -/
def g9 : Graph where
  render := fun url =>
    if url = "https://example.test/" then
      some [some "/ok", some "//[", some "/also"]
    else if url = "https://example.test/ok" then some []
    else if url = "https://example.test/also" then some []
    else none
  writeOk := fun _ => true
  resolve := fun href _ =>
    if href = "//[" then none else some ("https://example.test" ++ href)

/-- Graph for the no-canonicalization behavior: the seed page links to
the same document under three spellings (plain, trailing fragment,
trailing slash) plus a bare fragment anchor. -/
def g10 : Graph where
  render := fun url =>
    if url = "https://example.test/" then
      some [some "https://example.test/page", some "https://example.test/page#sec",
            some "https://example.test/page/", some "#sec"]
    else if url = "https://example.test/page" then some []
    else if url = "https://example.test/page#sec" then some []
    else if url = "https://example.test/page/" then some []
    else none
  writeOk := fun _ => true
  resolve := fun _ _ => none

end WebCrawler

namespace WebCrawler

/-! ### Unfolding equations and small state lemmas -/

theorem crawlPage_zero (g : Graph) (baseUrl : String) (maxPages : Nat)
    (url : String) (s : CrawlState) :
    crawlPage g baseUrl maxPages 0 url s = none := rfl

theorem crawlPage_succ (g : Graph) (baseUrl : String) (maxPages fuel : Nat) :
    crawlPage g baseUrl maxPages (fuel + 1) =
      crawlPageBody g baseUrl maxPages (crawlPage g baseUrl maxPages fuel) := rfl

@[simp] theorem markVisited_visitedUrls (url : String) (s : CrawlState) :
    (markVisited url s).visitedUrls = s.visitedUrls ++ [url] := rfl

@[simp] theorem markVisited_saveCalls (url : String) (s : CrawlState) :
    (markVisited url s).saveCalls = s.saveCalls := rfl

@[simp] theorem markVisited_savedOk (url : String) (s : CrawlState) :
    (markVisited url s).savedOk = s.savedOk := rfl

@[simp] theorem markVisited_pageCount (url : String) (s : CrawlState) :
    (markVisited url s).pageCount = s.pageCount := rfl

@[simp] theorem saveToFile_visitedUrls (g : Graph) (url : String) (s : CrawlState) :
    (saveToFile g url s).visitedUrls = s.visitedUrls := by
  unfold saveToFile
  split <;> rfl

@[simp] theorem markVisited_length (url : String) (s : CrawlState) :
    (markVisited url s).visitedUrls.length = s.visitedUrls.length + 1 := by
  simp [markVisited]

/-! ### Preservation, monotonicity, budget and totality -/

theorem crawlList_pres {P : CrawlState → Prop}
    {f : String → CrawlState → Option CrawlState} {maxPages : Nat}
    (hf : ∀ url s s2, f url s = some s2 → P s → P s2) :
    ∀ links s s2, crawlList f maxPages links s = some s2 → P s → P s2 := by
  intro links
  induction links with
  | nil =>
    intro s s2 h hP
    cases h
    exact hP
  | cons link rest ih =>
    intro s s2 h hP
    unfold crawlList at h
    split at h
    · cases hfl : f link s with
      | none =>
        rw [hfl] at h
        exact Option.noConfusion h
      | some s1 =>
        rw [hfl] at h
        exact ih s1 s2 h (hf link s s1 hfl hP)
    · cases h
      exact hP

theorem crawlList_mono {f : String → CrawlState → Option CrawlState} {maxPages : Nat}
    (hf : ∀ url s s2, f url s = some s2 →
      s.visitedUrls.length ≤ s2.visitedUrls.length) :
    ∀ links s s2, crawlList f maxPages links s = some s2 →
      s.visitedUrls.length ≤ s2.visitedUrls.length := by
  intro links s s2 h
  exact crawlList_pres (P := fun t => s.visitedUrls.length ≤ t.visitedUrls.length)
    (fun url t t2 ht hP => le_trans hP (hf url t t2 ht)) links s s2 h (le_refl _)

theorem crawlPage_mono (g : Graph) (baseUrl : String) (maxPages : Nat) :
    ∀ fuel url s s2, crawlPage g baseUrl maxPages fuel url s = some s2 →
      s.visitedUrls.length ≤ s2.visitedUrls.length := by
  intro fuel
  induction fuel with
  | zero =>
    intro url s s2 h
    rw [crawlPage_zero] at h
    exact Option.noConfusion h
  | succ fuel ih =>
    intro url s s2 h
    rw [crawlPage_succ] at h
    unfold crawlPageBody at h
    split at h
    · cases h
      exact le_refl _
    · split at h
      · cases h
        simp
      · split at h
        · cases h
          simp
        · have h2 := crawlList_mono ih _ _ s2 h
          simp at h2
          omega

theorem crawlPage_budget (g : Graph) (baseUrl : String) (maxPages : Nat) :
    ∀ fuel url s s2, crawlPage g baseUrl maxPages fuel url s = some s2 →
      s.visitedUrls.length ≤ maxPages → s2.visitedUrls.length ≤ maxPages := by
  intro fuel
  induction fuel with
  | zero =>
    intro url s s2 h _
    rw [crawlPage_zero] at h
    exact Option.noConfusion h
  | succ fuel ih =>
    intro url s s2 h hle
    rw [crawlPage_succ] at h
    unfold crawlPageBody at h
    split at h
    · cases h
      exact hle
    · rename_i hguard
      push_neg at hguard
      obtain ⟨hlt, _⟩ := hguard
      split at h
      · cases h
        simp
        omega
      · split at h
        · cases h
          simp
          omega
        · refine crawlList_pres (P := fun t => t.visitedUrls.length ≤ maxPages)
            (fun u t t2 ht hP => ih u t t2 ht hP) _ _ s2 h ?_
          simp
          omega

theorem crawlList_total (g : Graph) (baseUrl : String) (maxPages fuel : Nat)
    (htot : ∀ url s, maxPages ≤ fuel + s.visitedUrls.length → 0 < fuel →
      ∃ s2, crawlPage g baseUrl maxPages fuel url s = some s2) :
    ∀ links s, maxPages ≤ fuel + s.visitedUrls.length →
      ∃ s2, crawlList (crawlPage g baseUrl maxPages fuel) maxPages links s = some s2 := by
  intro links
  induction links with
  | nil =>
    intro s _
    exact ⟨s, rfl⟩
  | cons link rest ih =>
    intro s hle
    unfold crawlList
    by_cases hg : s.visitedUrls.length < maxPages
    · have hf : 0 < fuel := by omega
      obtain ⟨s1, hs1⟩ := htot link s hle hf
      rw [if_pos hg, hs1]
      have hm := crawlPage_mono g baseUrl maxPages fuel link s s1 hs1
      exact ih s1 (by omega)
    · rw [if_neg hg]
      exact ⟨s, rfl⟩

theorem crawlPage_total (g : Graph) (baseUrl : String) (maxPages : Nat) :
    ∀ fuel url s, maxPages ≤ fuel + s.visitedUrls.length → 0 < fuel →
      ∃ s2, crawlPage g baseUrl maxPages fuel url s = some s2 := by
  intro fuel
  induction fuel with
  | zero =>
    intro url s _ h0
    exact absurd h0 (by omega)
  | succ fuel ih =>
    intro url s hle _
    cases hres : crawlPage g baseUrl maxPages (fuel + 1) url s with
    | some s2 => exact ⟨s2, rfl⟩
    | none =>
      exfalso
      rw [crawlPage_succ] at hres
      unfold crawlPageBody at hres
      split at hres
      · exact Option.noConfusion hres
      · split at hres
        · exact Option.noConfusion hres
        · split at hres
          · exact Option.noConfusion hres
          · rename_i hrefs hr links hd
            obtain ⟨s2, hs2⟩ :=
              crawlList_total g baseUrl maxPages fuel ih links
                (saveToFile g url (markVisited url s)) (by simp; omega)
            rw [hs2] at hres
            exact Option.noConfusion hres

/-! ### The run invariant -/

theorem Inv_initState (g : Graph) : Inv g initState := by
  simp [Inv, initState]

theorem nodup_append_single {l : List String} {a : String}
    (h : l.Nodup) (ha : a ∉ l) : (l ++ [a]).Nodup := by
  rw [List.nodup_append]
  refine ⟨h, List.nodup_singleton a, ?_⟩
  intro x hx hxa
  rw [List.mem_singleton] at hxa
  exact ha (hxa ▸ hx)

theorem mem_append_one {l m : List String} {u a : String}
    (hm : ∀ v ∈ l, v ∈ m) (hu : u ∈ l ++ [a]) : u ∈ m ++ [a] := by
  rcases List.mem_append.mp hu with h | h
  · exact List.mem_append_left _ (hm u h)
  · exact List.mem_append_right _ h

theorem Inv_markVisited {g : Graph} {url : String} {s : CrawlState}
    (hnv : url ∉ s.visitedUrls) (h : Inv g s) :
    Inv g (markVisited url s) := by
  obtain ⟨h1, h2, h3, h4, h5, h6, h7⟩ := h
  refine ⟨nodup_append_single h1 hnv, h2, h3, ?_, h5, h6, h7⟩
  intro u hu
  exact List.mem_append_left _ (h4 u hu)

theorem Inv_step {g : Graph} {url : String} {s : CrawlState}
    (hnv : url ∉ s.visitedUrls) (h : Inv g s) :
    Inv g (saveToFile g url (markVisited url s)) := by
  obtain ⟨h1, h2, h3, h4, h5, h6, h7⟩ := h
  have hnc : url ∉ s.saveCalls := fun hc => hnv (h4 url hc)
  have hnk : url ∉ s.savedOk := fun hk => hnc (h5 url hk)
  unfold saveToFile
  split
  · rename_i hw
    refine ⟨nodup_append_single h1 hnv, nodup_append_single h2 hnc,
      nodup_append_single h3 hnk, ?_, ?_, ?_, ?_⟩
    · intro u hu
      exact mem_append_one h4 hu
    · intro u hu
      exact mem_append_one h5 hu
    · intro u hu
      rcases List.mem_append.mp hu with hu | hu
      · exact h6 u hu
      · rw [List.mem_singleton] at hu
        exact hu ▸ hw
    · show s.pageCount + 1 = (s.savedOk ++ [url]).length
      rw [List.length_append, h7]
      rfl
  · refine ⟨nodup_append_single h1 hnv, nodup_append_single h2 hnc,
      h3, ?_, ?_, h6, h7⟩
    · intro u hu
      exact mem_append_one h4 hu
    · intro u hu
      exact List.mem_append_left _ (h5 u hu)

theorem crawlPage_inv (g : Graph) (baseUrl : String) (maxPages : Nat) :
    ∀ fuel url s s2, crawlPage g baseUrl maxPages fuel url s = some s2 →
      Inv g s → Inv g s2 := by
  intro fuel
  induction fuel with
  | zero =>
    intro url s s2 h _
    rw [crawlPage_zero] at h
    exact Option.noConfusion h
  | succ fuel ih =>
    intro url s s2 h hInv
    rw [crawlPage_succ] at h
    unfold crawlPageBody at h
    split at h
    · cases h
      exact hInv
    · rename_i hguard
      push_neg at hguard
      obtain ⟨-, hnv⟩ := hguard
      split at h
      · cases h
        exact Inv_markVisited hnv hInv
      · split at h
        · cases h
          exact Inv_step hnv hInv
        · exact crawlList_pres (fun u t t2 ht hP => ih u t t2 ht hP)
            _ _ s2 h (Inv_step hnv hInv)

/-! ### Claims -/

/-- C1: REFUTED on the code (code bug).  The claim states that every
saved artifact is same-origin with the seed and that discoverLinks never
admits a URL whose origin differs, even when the absolute href merely has
the seed origin string as a proper prefix of a longer host.  The
same-origin check in the source is the plain string test
href.startsWith(baseUrl), so the absolute anchor
https://example.test.evil.com/x passes under the seed origin
https://example.test: discoverLinks returns it, crawlPage visits it and
saves its artifact, although its origin (scheme+host) differs from the
seed origin, contradicting the claim and the stated same-origin
containment property of the spec. -/
theorem discoverLinks_admits_prefix_confused_host :
    discoverLinks g1 "https://example.test"
      [some "https://example.test.evil.com/x"] =
      some ["https://example.test.evil.com/x"] ∧
    crawlPage g1 "https://example.test" 5 6 "https://example.test/" initState =
      some { visitedUrls := ["https://example.test/", "https://example.test.evil.com/x"],
             saveCalls := ["https://example.test/", "https://example.test.evil.com/x"],
             savedOk := ["https://example.test/", "https://example.test.evil.com/x"],
             pageCount := 2 } ∧
    originOf "https://example.test.evil.com/x" = some "https://example.test.evil.com" ∧
    originOf "https://example.test/" = some "https://example.test" ∧
    ("https://example.test.evil.com" : String) ≠ "https://example.test" := by
  refine ⟨by decide, by decide, by decide, by decide, by decide⟩

/-- C2 counterexample: the claimed visited set {/, /a, /b} is wrong for
the code.  Depth-first expansion fully resolves /a before the sibling /b:
after / and /a are visited the second link of /a, namely /c, still passes
the budget check (2 < 3) and is visited, filling the budget; the loop
over the links of / then breaks before /b.  So the run visits /c and
never visits /b, refuting the claim at the concrete scenario input. -/
theorem scenario_spec_expected_set_refuted :
    crawlPage g2 "https://example.test" 3 4 "https://example.test/" initState =
      some { visitedUrls := ["https://example.test/", "https://example.test/a",
                             "https://example.test/c"],
             saveCalls := ["https://example.test/", "https://example.test/a",
                           "https://example.test/c"],
             savedOk := ["https://example.test/", "https://example.test/a",
                         "https://example.test/c"],
             pageCount := 3 } ∧
    "https://example.test/b" ∉
      (["https://example.test/", "https://example.test/a",
        "https://example.test/c"] : List String) := by
  refine ⟨by decide, by decide⟩

/-- C2 amended: for the crawl with seed https://example.test/ over the
link graph where / links to /a and /b and /a links to / and /c, with
maxPages = 3, the visited set at the end of the run is exactly
{/, /a, /c} (in this visit order): the back link of /a to / is skipped
as already visited, /c is admitted while the count is still 2, and /b is
cut off by the budget check before each sibling.  Exactly 3 artifact
files are written, one per visited URL, and crawl reports 3 saved
pages. -/
theorem scenario_visited_set_dfs :
    crawlPage g2 "https://example.test" 3 4 "https://example.test/" initState =
      some { visitedUrls := ["https://example.test/", "https://example.test/a",
                             "https://example.test/c"],
             saveCalls := ["https://example.test/", "https://example.test/a",
                           "https://example.test/c"],
             savedOk := ["https://example.test/", "https://example.test/a",
                         "https://example.test/c"],
             pageCount := 3 } ∧
    crawl ⟨true, true⟩ g2 "https://example.test/" 3 =
      { browserLaunched := true, browserClosed := true, outcome := some 3 } := by
  refine ⟨by decide, by decide⟩

/-- C3: CONFIRMED.  For every graph, every budget maxPages and every
fuel, a crawlPage run started in a state whose visited count is within
the budget ends within the budget, and the visited set only ever grows:
a URL is inserted only under the admission check size < maxPages, so the
number of URLs ever inserted over a whole run from the empty set is at
most maxPages. -/
theorem crawlPage_budget_bound (g : Graph) (baseUrl : String)
    (maxPages fuel : Nat) (url : String) (s s2 : CrawlState)
    (h : crawlPage g baseUrl maxPages fuel url s = some s2)
    (hle : s.visitedUrls.length ≤ maxPages) :
    s2.visitedUrls.length ≤ maxPages ∧
    s.visitedUrls.length ≤ s2.visitedUrls.length :=
  ⟨crawlPage_budget g baseUrl maxPages fuel url s s2 h hle,
   crawlPage_mono g baseUrl maxPages fuel url s s2 h⟩

/-- C3 witness: the budget theorem applied to a concrete run with budget
2 on a graph whose navigations all fail. -/
theorem crawlPage_budget_bound_witness :
    (CrawlState.mk ["https://example.test/"] [] [] 0).visitedUrls.length ≤ 2 ∧
    initState.visitedUrls.length ≤
      (CrawlState.mk ["https://example.test/"] [] [] 0).visitedUrls.length :=
  crawlPage_budget_bound g3 "https://example.test" 2 3 "https://example.test/"
    initState (CrawlState.mk ["https://example.test/"] [] [] 0)
    (by decide) (by decide)

/-- C4: CONFIRMED.  Starting from any state satisfying the run invariant
(in particular the empty initial state), no URL appears twice in the
visited set, saveToFile is invoked at most once per distinct URL, and
every saved URL was marked visited (the source inserts the url into
visitedUrls before the navigation, extraction and save I/O begin). -/
theorem crawlPage_unique_visits_and_saves (g : Graph) (baseUrl : String)
    (maxPages fuel : Nat) (url : String) (s s2 : CrawlState)
    (h : crawlPage g baseUrl maxPages fuel url s = some s2)
    (hInv : Inv g s) :
    s2.visitedUrls.Nodup ∧ s2.saveCalls.Nodup ∧
    (∀ u ∈ s2.saveCalls, u ∈ s2.visitedUrls) := by
  obtain ⟨h1, h2, h3, h4, h5, h6, h7⟩ :=
    crawlPage_inv g baseUrl maxPages fuel url s s2 h hInv
  exact ⟨h1, h2, h4⟩

/-- C4 witness: the uniqueness theorem applied to a concrete one-page
run from the initial state. -/
theorem crawlPage_unique_visits_and_saves_witness :
    (CrawlState.mk ["https://example.test/"] ["https://example.test/"]
      ["https://example.test/"] 1).visitedUrls.Nodup ∧
    (CrawlState.mk ["https://example.test/"] ["https://example.test/"]
      ["https://example.test/"] 1).saveCalls.Nodup ∧
    (∀ u ∈ (CrawlState.mk ["https://example.test/"] ["https://example.test/"]
      ["https://example.test/"] 1).saveCalls,
      u ∈ (CrawlState.mk ["https://example.test/"] ["https://example.test/"]
        ["https://example.test/"] 1).visitedUrls) :=
  crawlPage_unique_visits_and_saves g4 "https://example.test" 2 3
    "https://example.test/" initState
    (CrawlState.mk ["https://example.test/"] ["https://example.test/"]
      ["https://example.test/"] 1)
    (by decide) (Inv_initState g4)

/-- C5: CONFIRMED.  For every graph (in particular graphs whose link
structure is cyclic) and every budget maxPages, the recursive visitation
procedure started on any seed from the empty visited set terminates:
fuel maxPages + 1 always suffices for the embedding (each non-skipped
visit strictly grows the visited set, whose size the admission check
bounds by maxPages, and an already-visited URL returns immediately), and
the final visited count is at most maxPages. -/
theorem crawlPage_terminates (g : Graph) (baseUrl : String)
    (maxPages : Nat) (url : String) :
    ∃ s2, crawlPage g baseUrl maxPages (maxPages + 1) url initState = some s2 ∧
      s2.visitedUrls.length ≤ maxPages := by
  obtain ⟨s2, hs2⟩ := crawlPage_total g baseUrl maxPages (maxPages + 1) url
    initState (by omega) (by omega)
  exact ⟨s2, hs2, crawlPage_budget g baseUrl maxPages (maxPages + 1) url
    initState s2 hs2 (by simp [initState])⟩

/-- C6: CONFIRMED.  If navigation to url fails (page.goto throws) on a
url that passes the admission check, the failure is caught at the
processing boundary of that url: the call returns normally with the
state changed only by the insertion of url into visitedUrls — no save
call, no counter change, no link discovery for url — and the loop of the
caller proceeds to the remaining sibling links against exactly that
state, so all other reachable, budget-eligible URLs are still visited
and saved (the witness runs a full crawl in which the sibling of the
failing page is visited and saved). -/
theorem crawlPage_render_failure_isolated (g : Graph) (baseUrl : String)
    (maxPages fuel : Nat) (url : String) (s : CrawlState)
    (hfail : g.render url = none) (hnv : url ∉ s.visitedUrls)
    (hlt : s.visitedUrls.length < maxPages) :
    crawlPage g baseUrl maxPages (fuel + 1) url s = some (markVisited url s) ∧
    (∀ rest, crawlList (crawlPage g baseUrl maxPages (fuel + 1)) maxPages
        (url :: rest) s =
      crawlList (crawlPage g baseUrl maxPages (fuel + 1)) maxPages rest
        (markVisited url s)) := by
  have hmain : crawlPage g baseUrl maxPages (fuel + 1) url s =
      some (markVisited url s) := by
    rw [crawlPage_succ]
    unfold crawlPageBody
    rw [if_neg (by push_neg; exact ⟨hlt, hnv⟩), hfail]
  refine ⟨hmain, fun rest => ?_⟩
  simp only [crawlList]
  rw [if_pos hlt, hmain]

/-- C6 witness: the isolation theorem applied to the failing url /x of
g6, plus the full run on g6 showing the sibling /b is still visited and
saved while /x is visited but never saved. -/
theorem crawlPage_render_failure_isolated_witness :
    crawlPage g6 "https://example.test" 3 1 "https://example.test/x" initState =
      some (markVisited "https://example.test/x" initState) ∧
    crawlPage g6 "https://example.test" 3 4 "https://example.test/" initState =
      some { visitedUrls := ["https://example.test/", "https://example.test/x",
                             "https://example.test/b"],
             saveCalls := ["https://example.test/", "https://example.test/b"],
             savedOk := ["https://example.test/", "https://example.test/b"],
             pageCount := 2 } :=
  ⟨(crawlPage_render_failure_isolated g6 "https://example.test" 3 0
      "https://example.test/x" initState (by decide) (by decide) (by decide)).1,
   by decide⟩

/-- C7: CONFIRMED.  The fs write runs inside the try/catch of saveToFile,
so a write failure never aborts the crawl; over any run from the initial
state, pageCount equals the number of successful saves, a URL whose
write failed is never among the successful saves (every successfully
saved url has writeOk true), and no URL has its save retried (the save
log is duplicate-free, and every save call is for a url that stays in
the visited set). -/
theorem crawlPage_write_failure_contained (g : Graph) (baseUrl : String)
    (maxPages fuel : Nat) (url : String) (s2 : CrawlState)
    (h : crawlPage g baseUrl maxPages fuel url initState = some s2) :
    s2.pageCount = s2.savedOk.length ∧
    (∀ u ∈ s2.savedOk, g.writeOk u = true) ∧
    s2.saveCalls.Nodup ∧
    (∀ u ∈ s2.saveCalls, u ∈ s2.visitedUrls) := by
  obtain ⟨h1, h2, h3, h4, h5, h6, h7⟩ :=
    crawlPage_inv g baseUrl maxPages fuel url initState s2 h (Inv_initState g)
  exact ⟨h7, h6, h2, h4⟩

/-- C7 witness: the containment theorem applied to the run on g7, where
the write for /b fails with a permission error: /b stays visited, its
save was attempted exactly once, and the reported count 1 counts only
the successful save of the seed. -/
theorem crawlPage_write_failure_contained_witness :
    s7.pageCount = s7.savedOk.length ∧
    (∀ u ∈ s7.savedOk, g7.writeOk u = true) ∧
    s7.saveCalls.Nodup ∧
    (∀ u ∈ s7.saveCalls, u ∈ s7.visitedUrls) :=
  crawlPage_write_failure_contained g7 "https://example.test" 3 4
    "https://example.test/" s7 (by decide)

/-- C8: REFUTED on the code (code bug).  The claim states that the
browser is closed on every exit path of crawl.  The source has no
try/finally: browser.close() is the last statement of the happy path, so
when browser.newPage() rejects (or the seed origin parse throws) the
exception propagates out of crawl with the already-launched browser left
open.  The theorem exhibits the leak on the newPage-failure path and on
the malformed-seed path, and shows close is reached on the success path
and that a launch failure leaves nothing to close. -/
theorem crawl_newPage_failure_leaks_browser :
    crawl ⟨true, false⟩ g8 "https://example.test/" 3 =
      { browserLaunched := true, browserClosed := false, outcome := none } ∧
    crawl ⟨true, true⟩ g8 "notaurl" 3 =
      { browserLaunched := true, browserClosed := false, outcome := none } ∧
    crawl ⟨false, false⟩ g8 "https://example.test/" 3 =
      { browserLaunched := false, browserClosed := false, outcome := none } ∧
    crawl ⟨true, true⟩ g8 "https://example.test/" 3 =
      { browserLaunched := true, browserClosed := true, outcome := some 0 } := by
  refine ⟨by decide, by decide, by decide, by decide⟩

/-- C9: REFUTED on the code (code bug).  The claim states that discovery
never throws and that a malformed candidate is dropped individually
without affecting the remaining candidates.  In the source the call
new URL(href, baseUrl) sits inside the forEach callback with no
try/catch, so one href whose resolution throws (such as two slashes
followed by an open bracket, which the WHATWG URL constructor rejects
even under a valid base) aborts the whole discovery: the good candidates
before and after it are lost, and the rejection propagates to the catch
in crawlPage, which then follows no links at all from that page (the
artifact of the page itself was already saved). -/
theorem discoverLinks_throws_on_malformed_href :
    discoverLinks g9 "https://example.test"
      [some "/ok", some "//[", some "/also"] = none ∧
    discoverLinks g9 "https://example.test" [some "/ok", some "/also"] =
      some ["https://example.test/ok", "https://example.test/also"] ∧
    crawlPage g9 "https://example.test" 5 6 "https://example.test/" initState =
      some { visitedUrls := ["https://example.test/"],
             saveCalls := ["https://example.test/"],
             savedOk := ["https://example.test/"],
             pageCount := 1 } := by
  refine ⟨by decide, by decide, by decide⟩

/-- C10: CONFIRMED.  Deduplication is by exact string equality with no
canonicalization: the absolute same-origin hrefs /page, /page#sec and
/page/ are all returned by discoverLinks as distinct entries (only an
href whose literal first character is the fragment marker is rejected,
as the bare anchor in the input shows), and under budget 3 the fragment
variant is admitted as a distinct visit that consumes the last budget
unit, so /page/ is never reached. -/
theorem discoverLinks_no_canonicalization :
    discoverLinks g10 "https://example.test"
      [some "https://example.test/page", some "https://example.test/page#sec",
       some "https://example.test/page/", some "#sec"] =
      some ["https://example.test/page", "https://example.test/page#sec",
            "https://example.test/page/"] ∧
    crawlPage g10 "https://example.test" 3 4 "https://example.test/" initState =
      some { visitedUrls := ["https://example.test/", "https://example.test/page",
                             "https://example.test/page#sec"],
             saveCalls := ["https://example.test/", "https://example.test/page",
                           "https://example.test/page#sec"],
             savedOk := ["https://example.test/", "https://example.test/page",
                         "https://example.test/page#sec"],
             pageCount := 3 } := by
  refine ⟨by decide, by decide⟩

end WebCrawler
